import Mathlib

/-!
Shallow embedding of the charlee-girl-dashboard core logic.

The embedding translates, from the TypeScript source:
  * the template-set repository with its optimistic-concurrency CAS protocol
    (src/app/api/templates/route.ts: GET, POST with retry loop, PUT, and the
    Lua script CAS_SCRIPT);
  * the pattern-library repository (src/app/api/patterns/route.ts);
  * the history repository with blob-storage cleanup
    (src/app/api/history/route.ts);
  * the client-side generation orchestrator
    (src/app/tools/product-on-white/page.tsx: handleGenerate).

Modelling conventions:
  * timestamps (`new Date()` / `Date.now()`) are natural numbers supplied
    explicitly; the orchestrator takes a clock stream `clock : Nat → Nat`
    because the source calls `Date.now()` separately per object field;
  * the Redis version counter is an `Option Nat` (absent key = `none`);
    version tokens crossing the HTTP boundary are the decimal numerals of
    this counter, so token equality is `Nat` equality.  `INCR` on an absent
    key initializes it from 0, exactly as Redis does;
  * the external image-generation collaborator is an oracle
    `gen : Nat → Except String String` giving, per processed template index,
    either an error message or the generated image URL (all of the source's
    per-item failure modes - network error, non-ok response, missing image -
    end in the same `catch` block, so one error case suffices);
  * JavaScript truthiness on strings (`""` is falsy) is translated explicitly
    wherever the source branches on a possibly-empty string.
-/

/-! ## Data model (src/types/index.ts) -/

/-- One camera angle/view of a product (interface `ImageTemplate`).
`templateImageBase64` is the deprecated local-storage form; `isActive` is
written by the template-grid UI (src/components/product-on-white/
TemplateGrid.tsx) although the declared interface omits it, so it is carried
here as an optional field. -/
structure ImageTemplate where
  id : String
  name : String
  templateImageUrl : String
  templateImageBase64 : Option String := none
  basePrompt : String
  sortOrder : Nat
  isActive : Option Bool := none
  createdAt : Nat
  updatedAt : Nat
deriving Repr, DecidableEq

/-- A named collection of templates representing one product type
(interface `TemplateSet`). -/
structure TemplateSet where
  id : String
  name : String
  icon : String
  templates : List ImageTemplate
  sortOrder : Nat
  createdAt : Nat
  updatedAt : Nat
deriving Repr, DecidableEq

/-- A follow-up edit of a generated image (interface `Refinement`). -/
structure Refinement where
  id : String
  prompt : String
  resultImageUrl : String
  createdAt : Nat
deriving Repr, DecidableEq

/-- Per-item status of one generation attempt (the `status` union of
interface `GeneratedImage`). -/
inductive GenStatus where
  | pending
  | generating
  | completed
  | failed
deriving Repr, DecidableEq

/-- One generation attempt for one template within a session
(interface `GeneratedImage`).  `apiCost` is in integer cents (the source's
decimal dollars scaled by 100: `0.02` becomes `2`), keeping the embedding
kernel-executable. -/
structure GeneratedImage where
  id : String
  sessionId : String
  imageTypeId : String
  templateImageUrl : String
  promptUsed : String
  promptModification : Option String := none
  generatedImageUrl : Option String := none
  status : GenStatus
  refinements : List Refinement := []
  apiCost : Nat
  errorMessage : Option String := none
  createdAt : Nat
deriving Repr, DecidableEq

/-- A saved, reusable pattern swatch (interface `PersistentPattern` in
src/app/api/patterns/route.ts). -/
structure PersistentPattern where
  id : String
  name : String
  url : String
  productTypeId : Option String := none
  createdAt : String
deriving Repr, DecidableEq

/-- Session status of a generation run (the `status` union of interface
`GenerationSession`). -/
inductive SessionStatus where
  | in_progress
  | completed
  | failed
deriving Repr, DecidableEq

/-- Output configuration (interface `OutputSettings`). -/
structure OutputSettings where
  aspectRatio : String
  size : String
deriving Repr, DecidableEq

/-- One persisted generation session (interface `HistoryEntry extends
GenerationSession` in src/app/api/history/route.ts). -/
structure HistoryEntry where
  id : String
  productTypeId : String
  patternImageUrl : String
  patternName : String
  outputSettings : OutputSettings
  createdAt : Nat
  status : SessionStatus
  images : List GeneratedImage
deriving Repr, DecidableEq

/-! ## Versioned template store (src/app/api/templates/route.ts)

The store holds two Redis records: the template-set collection under
`TEMPLATES_KEY` and the integer version counter under `VERSION_KEY`.
`none` means the key has never been written. -/

structure TemplateStore where
  data : Option (List TemplateSet)
  version : Option Nat
deriving Repr, DecidableEq

/-- The default template set seeded on first-ever access
(function `getDefaultTemplateSet`). -/
def getDefaultTemplateSet (now : Nat) : TemplateSet :=
  { id := "lifeguard-straw-hat"
    name := "Lifeguard Straw Hat"
    icon := "🎩"
    templates :=
      [ { id := "front-view"
          name := "Front View"
          templateImageUrl := ""
          basePrompt := "Apply the pattern to the front view of the hat, maintaining the natural straw texture and shape."
          sortOrder := 0
          createdAt := now
          updatedAt := now }
      , { id := "side-view"
          name := "Side View"
          templateImageUrl := ""
          basePrompt := "Apply the pattern to the side view of the hat, showing the full brim profile."
          sortOrder := 1
          createdAt := now
          updatedAt := now } ]
    sortOrder := 0
    createdAt := now
    updatedAt := now }

/-- The atomic compare-and-swap Lua script (constant `CAS_SCRIPT`):
reads the version key, treats an absent version as "1" for the comparison,
and on a match writes the data key and `INCR`s the version key.  Redis
`INCR` of an absent key initializes it from 0, so the new counter is
`s.version.getD 0 + 1` - computed from the raw key, not from the value used
in the comparison.  Returns the new version on success, `none` for the
script's `-1` conflict sentinel. -/
def casScript (s : TemplateStore) (expected : Nat) (newData : List TemplateSet) :
    TemplateStore × Option Nat :=
  let current := s.version.getD 1
  if current = expected then
    let newVersion := s.version.getD 0 + 1
    ({ data := some newData, version := some newVersion }, some newVersion)
  else
    (s, none)

namespace TemplatesApi

/-- What `GET /api/templates` produces: the (possibly seeded) store, the JSON
body, and the `X-Version` response header as a numeric token. -/
structure GetOutcome where
  store : TemplateStore
  body : List TemplateSet
  versionHeader : Nat
deriving Repr, DecidableEq

/-- Handler `GET` of src/app/api/templates/route.ts: seeds the default set
and version "1" only when the data key has never been written (`null`); an
explicitly saved empty collection is returned as-is.  A data record without
a version record yields header "1" (pre-versioning migration). -/
def GET (s : TemplateStore) (now : Nat) : GetOutcome :=
  match s.data with
  | none =>
      let defaultSet := getDefaultTemplateSet now
      { store := { data := some [defaultSet], version := some 1 }
        body := [defaultSet]
        versionHeader := 1 }
  | some templateSets =>
      { store := s, body := templateSets, versionHeader := s.version.getD 1 }

/-- Result of `PUT /api/templates`. -/
inductive PutResult where
  /-- 428: the `X-Version` request header is missing. -/
  | preconditionRequired
  /-- 409: the version comparison failed. -/
  | conflict
  /-- 200 with the saved body and the `X-Version` response header. -/
  | ok (body : List TemplateSet) (newVersion : Nat)
deriving Repr, DecidableEq

/-- The `updatedAt` refresh `PUT` applies to every incoming set. -/
def putTouch (now : Nat) (set : TemplateSet) : TemplateSet :=
  { set with updatedAt := now }

/-- Handler `PUT` of src/app/api/templates/route.ts (`replaceAll`): requires
the `X-Version` header, refreshes `updatedAt` on each set, then runs the CAS
script; `-1` from the script is reported as a 409 Conflict. -/
def PUT (s : TemplateStore) (body : List TemplateSet) (clientVersion : Option Nat)
    (now : Nat) : TemplateStore × PutResult :=
  match clientVersion with
  | none => (s, .preconditionRequired)
  | some expected =>
      let updatedSets := body.map (putTouch now)
      match casScript s expected updatedSets with
      | (s1, some newVersion) => (s1, .ok updatedSets newVersion)
      | (s1, none) => (s1, .conflict)

end TemplatesApi

namespace TemplatesApi

/-- Error message of the distinct "too much contention" 409 response of
`POST /api/templates`. -/
def contentionMsg : String :=
  "Failed to create template set due to high concurrency. Please try again."

/-- Error message of the generic 500 response of `POST /api/templates`. -/
def genericCreateFailMsg : String := "Failed to create template set"

/-- Result of `POST /api/templates`. -/
inductive PostResult where
  /-- 201 with the created set and the `X-Version` response header. -/
  | created (set : TemplateSet) (newVersion : Nat)
  /-- 409 after exhausting the CAS retry budget. -/
  | contention (msg : String)
  /-- 500 from the outer catch block (never produced by the loop itself). -/
  | serverError (msg : String)
deriving Repr, DecidableEq

/-- What the create loop ends with: the final store, the HTTP result and the
number of attempts executed. -/
structure PostOutcome where
  store : TemplateStore
  result : PostResult
  attempts : Nat
deriving Repr, DecidableEq

/-- The id/timestamp assignment `POST` performs before the loop:
`newSet.createdAt = new Date(); newSet.updatedAt = new Date();
newSet.id = newSet.id || Backtick-set-Date.now()`. -/
def assignSet (now : Nat) (newSet : TemplateSet) : TemplateSet :=
  { newSet with
      createdAt := now
      updatedAt := now
      id := if newSet.id = "" then "set-" ++ toString now else newSet.id }

/-- The CAS retry loop of `POST /api/templates`.  Each attempt reads the
current data and version (`mget`, absent data read as `[]`, absent version
as "1"), appends the new set, and runs the CAS script.  Between the read and
the script the store may be changed by concurrent writers; `env att`
produces that interference.  The `Math.random() * 100` jittered delay
between attempts has no effect on the store and is elided.  `fuel` starts at
`MAX_ATTEMPTS = 5`; exhausting it yields the distinct contention error. -/
def postLoop (env : Nat → TemplateStore → TemplateStore) (newSet : TemplateSet) :
    Nat → Nat → TemplateStore → PostOutcome
  | 0, att, s => { store := s, result := .contention contentionMsg, attempts := att }
  | fuel + 1, att, s =>
      let readSets := s.data.getD []
      let readVersion := s.version.getD 1
      let s1 := env att s
      match casScript s1 readVersion (readSets ++ [newSet]) with
      | (s2, some newVersion) =>
          { store := s2, result := .created newSet newVersion, attempts := att + 1 }
      | (s2, none) => postLoop env newSet fuel (att + 1) s2

/-- Handler `POST` of src/app/api/templates/route.ts (`create`): assigns
id/timestamps, then runs the bounded CAS retry loop. -/
def POST (env : Nat → TemplateStore → TemplateStore) (now : Nat)
    (newSet : TemplateSet) (s : TemplateStore) : PostOutcome :=
  postLoop env (assignSet now newSet) 5 0 s

end TemplatesApi

/-! ## Fixtures used by concrete evaluations -/

/-- A minimal template set used as concrete payload. -/
def demoSetB : TemplateSet :=
  { id := "set-b", name := "Set B", icon := "🧢", templates := [], sortOrder := 0,
    createdAt := 0, updatedAt := 0 }

/-- A second minimal template set used as concrete payload. -/
def demoSetC : TemplateSet :=
  { id := "set-c", name := "Set C", icon := "👒", templates := [], sortOrder := 1,
    createdAt := 0, updatedAt := 0 }

/-- A pre-versioning store: the data key was written, the version key never
was (the migration state the CAS script's comment describes). -/
def legacyStore : TemplateStore := { data := some [demoSetB], version := none }

/-- A store with the version key present. -/
def demoStore : TemplateStore := { data := some [demoSetB], version := some 3 }

/-! ## C1: replaceAll / PUT compare-and-swap -/

/-- C1 (amended): when the stored version token is present (`some n`),
`replaceAll` behaves exactly as claimed: a matching expected token replaces
the whole collection, increments the version to `n + 1` and returns it; a
mismatching token yields Conflict with the store untouched (no partial
write); and of two replaceAll calls carrying the same initial expected
token, exactly one succeeds - the second gets Conflict and the store holds
only the winner's write.  (The unamended claim also covers a store whose
version key is absent; see the counterexample.) -/
theorem replaceAll_version_present_cas (s : TemplateStore) (n : Nat)
    (body1 body2 : List TemplateSet) (expected t1 t2 : Nat)
    (hv : s.version = some n) :
    (expected = n →
      TemplatesApi.PUT s body1 (some expected) t1 =
        ({ data := some (body1.map (TemplatesApi.putTouch t1)), version := some (n + 1) },
          .ok (body1.map (TemplatesApi.putTouch t1)) (n + 1))) ∧
    (expected ≠ n →
      TemplatesApi.PUT s body1 (some expected) t1 = (s, .conflict)) ∧
    (TemplatesApi.PUT s body1 (some n) t1).2 =
      .ok (body1.map (TemplatesApi.putTouch t1)) (n + 1) ∧
    (TemplatesApi.PUT s body1 (some n) t1).1.data =
      some (body1.map (TemplatesApi.putTouch t1)) ∧
    TemplatesApi.PUT (TemplatesApi.PUT s body1 (some n) t1).1 body2 (some n) t2 =
      ((TemplatesApi.PUT s body1 (some n) t1).1, .conflict) := by
  obtain ⟨d, v⟩ := s
  simp only [TemplateStore.mk.injEq] at hv
  subst hv
  refine ⟨?_, ?_, ?_, ?_, ?_⟩
  · intro he
    subst he
    simp [TemplatesApi.PUT, casScript]
  · intro hne
    simp [TemplatesApi.PUT, casScript, Ne.symm hne]
  · simp [TemplatesApi.PUT, casScript]
  · simp [TemplatesApi.PUT, casScript]
  · simp [TemplatesApi.PUT, casScript]

/-- C1 witness: the amended behavior evaluated at a concrete store with
version 3: a matching replaceAll succeeds with version 4. -/
theorem replaceAll_version_present_cas_witness :
    TemplatesApi.PUT demoStore [demoSetC] (some 3) 5 =
      ({ data := some ([demoSetC].map (TemplatesApi.putTouch 5)), version := some (3 + 1) },
        .ok ([demoSetC].map (TemplatesApi.putTouch 5)) (3 + 1)) :=
  (replaceAll_version_present_cas demoStore 3 [demoSetC] [] 3 5 6 rfl).1 rfl

/-- C1 counterexample: on a pre-versioning store whose version key is absent
(treated as "1" for the comparison), a replaceAll with expected token "1"
succeeds but returns version 1 - not the incremented 2 - because the Lua
script INCRs the absent key from 0; consequently a second replaceAll made
with the same initial expected token "1" also succeeds (returning 2), so
both of two calls with the same initial expected version succeed, and the
first writer's data is silently overwritten. -/
theorem replaceAll_missing_version_cex :
    (TemplatesApi.PUT legacyStore [demoSetB] (some 1) 5).2 =
      .ok [TemplatesApi.putTouch 5 demoSetB] 1 ∧
    (TemplatesApi.PUT (TemplatesApi.PUT legacyStore [demoSetB] (some 1) 5).1
        [demoSetC] (some 1) 6).2 =
      .ok [TemplatesApi.putTouch 6 demoSetC] 2 ∧
    (TemplatesApi.PUT (TemplatesApi.PUT legacyStore [demoSetB] (some 1) 5).1
        [demoSetC] (some 1) 6).1.data = some [TemplatesApi.putTouch 6 demoSetC] := by
  decide

/-! ## C2: fetchAll / GET first-access seeding -/

/-- C2: `fetchAll` seeds the default template set, persisted together with
version "1", exactly when the store key has never been written; a repeated
call then finds the seeded data and changes nothing (defaults are seeded
exactly once); and a store holding an explicitly saved collection - the
empty collection included - is returned as-is, never re-seeded. -/
theorem fetchAll_seeding (s t : TemplateStore) (now now2 : Nat)
    (sets : List TemplateSet) (h1 : s.data = none) (h2 : t.data = some sets) :
    TemplatesApi.GET s now =
      { store := { data := some [getDefaultTemplateSet now], version := some 1 }
        body := [getDefaultTemplateSet now], versionHeader := 1 } ∧
    TemplatesApi.GET (TemplatesApi.GET s now).store now2 =
      { store := (TemplatesApi.GET s now).store
        body := [getDefaultTemplateSet now], versionHeader := 1 } ∧
    TemplatesApi.GET t now2 = { store := t, body := sets, versionHeader := t.version.getD 1 } := by
  obtain ⟨d1, v1⟩ := s
  obtain ⟨d2, v2⟩ := t
  simp only [TemplateStore.mk.injEq] at h1 h2
  subst h1
  subst h2
  refine ⟨?_, ?_, ?_⟩
  · simp [TemplatesApi.GET]
  · simp [TemplatesApi.GET]
  · simp [TemplatesApi.GET]

/-- C2 witness: on the never-written store the first call seeds the default
set with version 1, the second call returns it unchanged, and a store
holding the explicitly saved empty collection yields the empty collection
with its stored version 7. -/
theorem fetchAll_seeding_witness :
    TemplatesApi.GET { data := none, version := none } 4 =
      { store := { data := some [getDefaultTemplateSet 4], version := some 1 }
        body := [getDefaultTemplateSet 4], versionHeader := 1 } ∧
    TemplatesApi.GET (TemplatesApi.GET { data := none, version := none } 4).store 9 =
      { store := (TemplatesApi.GET { data := none, version := none } 4).store
        body := [getDefaultTemplateSet 4], versionHeader := 1 } ∧
    TemplatesApi.GET { data := some [], version := some 7 } 9 =
      { store := { data := some [], version := some 7 }, body := [], versionHeader := 7 } :=
  fetchAll_seeding { data := none, version := none } { data := some [], version := some 7 }
    4 9 [] rfl rfl

/-! ## C8: create / POST bounded CAS retry loop -/

/-- A successful run of the CAS script yields exactly the written store. -/
theorem casScript_ok (s : TemplateStore) (e : Nat) (d : List TemplateSet)
    (s2 : TemplateStore) (v : Nat) (h : casScript s e d = (s2, some v)) :
    s2 = { data := some d, version := some v } := by
  unfold casScript at h
  simp only [] at h
  by_cases hc : s.version.getD 1 = e
  · rw [if_pos hc] at h
    simp only [Prod.mk.injEq, Option.some.injEq] at h
    obtain ⟨h1, h2⟩ := h
    rw [← h1, h2]
  · rw [if_neg hc] at h
    simp at h

/-- Behavior of the create retry loop for any fuel, attempt count, store and
interference: attempts stay within the fuel budget; a `created` result
carries the assigned set, leaves the store's collection ending in that set
with the returned version stored; and a run that does not end `created` ends
with the distinct contention error after consuming the whole budget. -/
theorem postLoop_spec (env : Nat → TemplateStore → TemplateStore)
    (newSet : TemplateSet) :
    ∀ (fuel att : Nat) (s : TemplateStore),
      (TemplatesApi.postLoop env newSet fuel att s).attempts ≤ att + fuel ∧
      (∀ st v, (TemplatesApi.postLoop env newSet fuel att s).result = .created st v →
          st = newSet ∧
          (∃ pre, (TemplatesApi.postLoop env newSet fuel att s).store.data =
              some (pre ++ [newSet])) ∧
          (TemplatesApi.postLoop env newSet fuel att s).store.version = some v) ∧
      ((∃ st v, (TemplatesApi.postLoop env newSet fuel att s).result = .created st v) ∨
        ((TemplatesApi.postLoop env newSet fuel att s).result =
            .contention TemplatesApi.contentionMsg ∧
          (TemplatesApi.postLoop env newSet fuel att s).attempts = att + fuel)) := by
  intro fuel
  induction fuel with
  | zero =>
      intro att s
      simp [TemplatesApi.postLoop]
  | succ fuel ih =>
      intro att s
      rcases hcas : casScript (env att s) (s.version.getD 1) (s.data.getD [] ++ [newSet])
        with ⟨s2, r⟩
      cases r with
      | some v =>
          have hs2 := casScript_ok _ _ _ _ _ hcas
          simp only [TemplatesApi.postLoop, hcas]
          refine ⟨by omega, ?_, ?_⟩
          · intro st v' hr
            simp only [TemplatesApi.PostResult.created.injEq] at hr
            obtain ⟨hst, hv'⟩ := hr
            subst hst hv' hs2
            exact ⟨rfl, ⟨s.data.getD [], rfl⟩, rfl⟩
          · exact Or.inl ⟨newSet, v, rfl⟩
      | none =>
          have ihr := ih (att + 1) s2
          simp only [TemplatesApi.postLoop, hcas]
          refine ⟨by omega, ihr.2.1, ?_⟩
          rcases ihr.2.2 with h | ⟨hc, ha⟩
          · exact Or.inl h
          · exact Or.inr ⟨hc, by omega⟩

/-- C8: `create` (POST /api/templates) is a read-modify-CAS-write retry loop
bounded at 5 attempts (the jittered backoff between attempts does not touch
the store and is elided); whenever some attempt's CAS succeeds, the response
is Created carrying the new set with its assigned id and timestamps, the
stored collection ends with that appended set, and the stored version is
exactly the returned token; and a run in which no attempt succeeds consumes
all 5 attempts and reports the distinct "too much contention" error, whose
message differs from the generic create-failure message. -/
theorem create_retry_loop (env : Nat → TemplateStore → TemplateStore) (now : Nat)
    (newSet : TemplateSet) (s : TemplateStore) :
    (TemplatesApi.POST env now newSet s).attempts ≤ 5 ∧
    (∀ st v, (TemplatesApi.POST env now newSet s).result = .created st v →
        st = TemplatesApi.assignSet now newSet ∧
        (∃ pre, (TemplatesApi.POST env now newSet s).store.data =
            some (pre ++ [TemplatesApi.assignSet now newSet])) ∧
        (TemplatesApi.POST env now newSet s).store.version = some v) ∧
    ((∃ st v, (TemplatesApi.POST env now newSet s).result = .created st v) ∨
      ((TemplatesApi.POST env now newSet s).result =
          .contention TemplatesApi.contentionMsg ∧
        (TemplatesApi.POST env now newSet s).attempts = 5)) ∧
    TemplatesApi.contentionMsg ≠ TemplatesApi.genericCreateFailMsg := by
  have h := postLoop_spec env (TemplatesApi.assignSet now newSet) 5 0 s
  exact ⟨h.1, fun st v hr => (h.2.1 st v hr), h.2.2, by decide⟩

/-! ## Pattern library (src/app/api/patterns/route.ts)

`configured` reflects whether the Redis client could be constructed (the
`redisClient` null check); the stored value under `PATTERNS_KEY` is `none`
when the key was never written. -/

namespace PatternsApi

/-- Result of `POST /api/patterns`. -/
inductive PostPatternResult where
  /-- 201 with the pattern echoed back. -/
  | created (p : PersistentPattern)
  /-- 503 "Storage not available in local mode". -/
  | storageUnavailable
deriving Repr, DecidableEq

/-- Handler `GET` of src/app/api/patterns/route.ts: no client yields the
empty list (a success, not an error); otherwise the stored patterns,
filtered - when a non-empty `productTypeId` query parameter is given - to
those matching the scope or carrying no scope (global). -/
def GET (configured : Bool) (store : Option (List PersistentPattern))
    (productTypeId : Option String) : List PersistentPattern :=
  if !configured then []
  else
    let patterns := store.getD []
    match productTypeId with
    | some pid =>
        if pid = "" then patterns
        else patterns.filter fun p =>
          (match p.productTypeId with
            | none => true
            | some s => s = "") || p.productTypeId = some pid
    | none => patterns

/-- Handler `POST` of src/app/api/patterns/route.ts: no client yields 503
with nothing written; otherwise the new pattern is appended to the stored
list unconditionally - the handler performs no duplicate-name check of any
kind (src/components/product-on-white/PatternUpload.tsx only warns
client-side and notes the collision "is not" strictly enforced). -/
def POST (configured : Bool) (store : Option (List PersistentPattern))
    (newPattern : PersistentPattern) :
    Option (List PersistentPattern) × PostPatternResult :=
  if !configured then (store, .storageUnavailable)
  else (some (store.getD [] ++ [newPattern]), .created newPattern)

end PatternsApi

/-! ## C6: duplicate pattern names -/

/-- Leading and trailing whitespace removed from a character list. -/
def trimChars (cs : List Char) : List Char :=
  (((cs.dropWhile Char.isWhitespace).reverse.dropWhile Char.isWhitespace).reverse)

/-- The claim's duplicate-comparison key: case-insensitive after whitespace
trimming, within the same scope (computed over character lists so it is
kernel-executable).  Stated from the spec's words to express what the
counterexample violates; the handler itself never computes it. -/
def samePatternKey (p q : PersistentPattern) : Bool :=
  (trimChars p.name.data).map Char.toLower = (trimChars q.name.data).map Char.toLower
    && p.productTypeId = q.productTypeId

/-- Pattern "Tropical" in scope A. -/
def tropicalA : PersistentPattern :=
  { id := "pat-1", name := "Tropical", url := "https://blob.example/tropical-1.png",
    productTypeId := some "scope-a", createdAt := "2025-01-01" }

/-- A second pattern also named "Tropical" (differing only in case and
whitespace) in the same scope A. -/
def tropicalA2 : PersistentPattern :=
  { id := "pat-2", name := " tropical ", url := "https://blob.example/tropical-2.png",
    productTypeId := some "scope-a", createdAt := "2025-01-02" }

/-- C6 counterexample: adding a pattern whose name already exists in the
same scope (same trimmed, lowercased name, same scope) is not rejected: the
handler answers Created and afterwards the stored library holds both
same-named patterns - the claimed Conflict with an unchanged library does
not happen. -/
theorem duplicate_pattern_accepted_cex :
    samePatternKey tropicalA tropicalA2 = true ∧
    PatternsApi.POST true (some [tropicalA]) tropicalA2 =
      (some [tropicalA, tropicalA2], .created tropicalA2) := by
  constructor
  · decide
  · decide

/-- C6 (amended): the pattern-library add operation performs no duplicate
detection at all: against a configured store it unconditionally appends the
new pattern and reports Created, whatever names (in whatever scope) the
stored library already holds - so a same-name add in the same scope yields
two coexisting entries rather than one success and one Conflict, while adds
in a different scope succeed as the claim says. -/
theorem add_pattern_always_appends (store : Option (List PersistentPattern))
    (newPattern : PersistentPattern) :
    PatternsApi.POST true store newPattern =
      (some (store.getD [] ++ [newPattern]), .created newPattern) := by
  simp [PatternsApi.POST]

/-! ## Blob storage collaborator (put/list/del of @vercel/blob) -/

/-- `s.startsWith pfxStr`, computed on character lists so the kernel can
evaluate it (the library's `String.startsWith` byte loop is opaque to
`decide`). -/
def strStartsWith (s pfxStr : String) : Bool :=
  List.isPrefixOf pfxStr.data s.data

/-- One stored blob: a pathname (matched by prefix listing) and its public
URL (matched by deletion). -/
structure BlobRec where
  pathname : String
  url : String
deriving Repr, DecidableEq

/-- The collaborator's `list` restricted to a path prefix. -/
def blobListByPfx (blobs : List BlobRec) (pfx : String) : List BlobRec :=
  blobs.filter fun b => strStartsWith b.pathname pfx

/-- The collaborator's `del` over a URL list. -/
def blobDel (blobs : List BlobRec) (urls : List String) : List BlobRec :=
  blobs.filter fun b => !urls.contains b.url

/-! ## History repository (src/app/api/history/route.ts) -/

/-- Placeholder record for `List.getD` at indices `findIdx?` proved in
bounds (never actually read). -/
def emptyHistoryEntry : HistoryEntry :=
  { id := "", productTypeId := "", patternImageUrl := "", patternName := ""
    outputSettings := { aspectRatio := "", size := "" }
    createdAt := 0, status := .in_progress, images := [] }

/-- Placeholder image for `List.getD` at indices `findIdx?` proved in
bounds (never actually read). -/
def emptyGeneratedImage : GeneratedImage :=
  { id := "", sessionId := "", imageTypeId := "", templateImageUrl := ""
    promptUsed := "", status := .pending, apiCost := 0, createdAt := 0 }

namespace HistoryApi

/-- Handler `GET` of src/app/api/history/route.ts: no client yields the
empty list (a success, not an error); otherwise the stored history sorted
newest-first by `createdAt`. -/
def GET (configured : Bool) (store : Option (List HistoryEntry)) : List HistoryEntry :=
  if !configured then []
  else (store.getD []).insertionSort fun a b => b.createdAt ≤ a.createdAt

/-- Result of `POST /api/history`. -/
inductive HistPostResult where
  /-- 201 `success: true`. -/
  | created
  /-- 400 "Invalid data". -/
  | invalidData
  /-- 503 "Storage not available". -/
  | storageUnavailable
deriving Repr, DecidableEq

/-- Handler `POST` of src/app/api/history/route.ts: basic validation first
(`!entry.id` - the empty string is falsy; the `images` field always exists
in this model), then the configuration check, then an append carrying a
fresh server-side timestamp (the client-supplied `createdAt` is discarded). -/
def POST (configured : Bool) (store : Option (List HistoryEntry))
    (entry : HistoryEntry) (now : Nat) :
    Option (List HistoryEntry) × HistPostResult :=
  if entry.id = "" then (store, .invalidData)
  else if !configured then (store, .storageUnavailable)
  else (some (store.getD [] ++ [{ entry with createdAt := now }]), .created)

/-- Result of `DELETE /api/history`. -/
inductive DelResult where
  /-- 200 with the number of blob URLs removed (session delete). -/
  | okSession (deletedCount : Nat)
  /-- 200 (single-image delete). -/
  | okImage
  /-- 400 "ID required". -/
  | idRequired
  /-- 503 "Storage not available". -/
  | storageUnavailable
  /-- 400 "Image ID required for image deletion". -/
  | imageIdRequired
  /-- 404 "Session not found". -/
  | sessionNotFound
  /-- 404 "Image not found". -/
  | imageNotFound
  /-- 400 "Invalid type". -/
  | invalidType
deriving Repr, DecidableEq

/-- What `DELETE /api/history` leaves behind: the history store, the blob
store, and the HTTP result. -/
structure DeleteOutcome where
  store : Option (List HistoryEntry)
  blobs : List BlobRec
  result : DelResult
deriving Repr, DecidableEq

/-- The URLs collected from the session record: each image's
`generatedImageUrl` when truthy (present and non-empty), in order, kept
even if repeated. -/
def sessionImageUrls (sessionToDelete : Option HistoryEntry) : List String :=
  match sessionToDelete with
  | none => []
  | some sess =>
      sess.images.foldl
        (fun acc img =>
          match img.generatedImageUrl with
          | some u => if u = "" then acc else acc ++ [u]
          | none => acc)
        []

/-- The listed blobs of the session folder appended to the collected URLs
unless already present (the handler's `includes` check). -/
def addListedUrls (urls0 : List String) (listed : List BlobRec) : List String :=
  listed.foldl (fun acc b => if acc.contains b.url then acc else acc ++ [b.url]) urls0

/-- The full `urlsToDelete` list a session delete builds: the session
record's URLs, then any blob stored under `active-sessions/{id}/` not
already collected. -/
def urlsToDelete (history : List HistoryEntry) (blobs : List BlobRec) (id : String) :
    List String :=
  addListedUrls (sessionImageUrls (history.find? fun item => item.id = id))
    (blobListByPfx blobs ("active-sessions/" ++ id ++ "/"))

/-- Handler `DELETE` of src/app/api/history/route.ts.  `id` and `imageId`
are the query parameters (`none` when absent); `type` arrives defaulted to
"session" upstream. -/
def DELETE (configured : Bool) (store : Option (List HistoryEntry))
    (blobs : List BlobRec) (id : Option String) (type : String)
    (imageId : Option String) : DeleteOutcome :=
  match id with
  | none => { store := store, blobs := blobs, result := .idRequired }
  | some id =>
      if !configured then { store := store, blobs := blobs, result := .storageUnavailable }
      else
        let currentHistory := store.getD []
        if type = "session" then
          let updatedHistory := currentHistory.filter fun item => !(item.id = id)
          let urls := urlsToDelete currentHistory blobs id
          { store := some updatedHistory
            blobs := blobDel blobs urls
            result := .okSession urls.length }
        else if type = "image" then
          match imageId with
          | none => { store := store, blobs := blobs, result := .imageIdRequired }
          | some imageId =>
              match currentHistory.findIdx? (fun item => item.id = id) with
              | none => { store := store, blobs := blobs, result := .sessionNotFound }
              | some sessionIndex =>
                  let sess := currentHistory.getD sessionIndex emptyHistoryEntry
                  match sess.images.findIdx? (fun img => img.id = imageId) with
                  | none => { store := store, blobs := blobs, result := .imageNotFound }
                  | some imageIndex =>
                      let imageToDelete := sess.images.getD imageIndex emptyGeneratedImage
                      let newImages := sess.images.eraseIdx imageIndex
                      let updatedHistory :=
                        currentHistory.set sessionIndex { sess with images := newImages }
                      let newBlobs :=
                        match imageToDelete.generatedImageUrl with
                        | some u => if u = "" then blobs else blobDel blobs [u]
                        | none => blobs
                      { store := some updatedHistory, blobs := newBlobs, result := .okImage }
        else { store := store, blobs := blobs, result := .invalidType }

end HistoryApi

/-! ## C7: history cascade delete -/

/-- Membership in the session-URL accumulation: a URL is collected exactly
when some image of the session carries it as a non-empty
`generatedImageUrl` (or it was in the accumulator already). -/
theorem mem_sessionUrls_foldl (imgs : List GeneratedImage) (acc : List String)
    (u : String) :
    u ∈ imgs.foldl
        (fun acc img =>
          match img.generatedImageUrl with
          | some v => if v = "" then acc else acc ++ [v]
          | none => acc)
        acc ↔
      u ∈ acc ∨ ∃ img ∈ imgs, img.generatedImageUrl = some u ∧ u ≠ "" := by
  induction imgs generalizing acc with
  | nil => simp
  | cons img rest ih =>
      simp only [List.foldl_cons]
      rw [ih]
      cases himg : img.generatedImageUrl with
      | none => simp [himg]
      | some v =>
          by_cases hv : v = ""
          · subst hv
            simp only [himg, if_pos rfl]
            constructor
            · rintro (h | h)
              · exact Or.inl h
              · exact Or.inr (by simpa using Or.inr h)
            · rintro (h | h)
              · exact Or.inl h
              · rcases (by simpa using h : (img.generatedImageUrl = some u ∧ ¬u = "") ∨
                    ∃ im ∈ rest, im.generatedImageUrl = some u ∧ ¬u = "") with h2 | h2
                · rw [himg] at h2
                  simp only [Option.some.injEq] at h2
                  exact absurd h2.1.symm h2.2
                · exact Or.inr h2
          · simp only [himg, if_neg hv, List.mem_append, List.mem_singleton]
            constructor
            · rintro ((h | h) | h)
              · exact Or.inl h
              · subst h
                exact Or.inr (by simp [himg, hv])
              · exact Or.inr (by simpa using Or.inr h)
            · rintro (h | h)
              · exact Or.inl (Or.inl h)
              · rcases (by simpa using h : (img.generatedImageUrl = some u ∧ ¬u = "") ∨
                    ∃ im ∈ rest, im.generatedImageUrl = some u ∧ ¬u = "") with h2 | h2
                · rw [himg] at h2
                  simp only [Option.some.injEq] at h2
                  exact Or.inl (Or.inr h2.1.symm)
                · exact Or.inr h2

/-- Membership in the session's collected URLs. -/
theorem mem_sessionImageUrls (o : Option HistoryEntry) (u : String) :
    u ∈ HistoryApi.sessionImageUrls o ↔
      ∃ sess, o = some sess ∧
        ∃ img ∈ sess.images, img.generatedImageUrl = some u ∧ u ≠ "" := by
  cases o with
  | none => simp [HistoryApi.sessionImageUrls]
  | some sess =>
      rw [HistoryApi.sessionImageUrls, mem_sessionUrls_foldl]
      simp

/-- Membership in the deduplicating append of listed blob URLs. -/
theorem mem_addListedUrls (urls0 : List String) (listed : List BlobRec) (u : String) :
    u ∈ HistoryApi.addListedUrls urls0 listed ↔
      u ∈ urls0 ∨ ∃ b ∈ listed, b.url = u := by
  induction listed generalizing urls0 with
  | nil => simp [HistoryApi.addListedUrls]
  | cons b rest ih =>
      rw [HistoryApi.addListedUrls, List.foldl_cons, ← HistoryApi.addListedUrls, ih]
      by_cases hc : urls0.contains b.url
      · have hm : b.url ∈ urls0 := by simpa using hc
        rw [if_pos hc]
        constructor
        · rintro (h | h)
          · exact Or.inl h
          · exact Or.inr (by simpa using Or.inr h)
        · rintro (h | h)
          · exact Or.inl h
          · rcases (by simpa using h : b.url = u ∨ ∃ b2 ∈ rest, b2.url = u) with h2 | h2
            · exact Or.inl (h2 ▸ hm)
            · exact Or.inr h2
      · rw [if_neg hc]
        simp only [List.mem_append, List.mem_singleton]
        constructor
        · rintro ((h | h) | h)
          · exact Or.inl h
          · exact Or.inr (by simpa using Or.inl h.symm)
          · exact Or.inr (by simpa using Or.inr h)
        · rintro (h | h)
          · exact Or.inl (Or.inl h)
          · rcases (by simpa using h : b.url = u ∨ ∃ b2 ∈ rest, b2.url = u) with h2 | h2
            · exact Or.inl (Or.inr h2.symm)
            · exact Or.inr h2

/-- C7: for every history state, a session delete removes that session's
metadata entry and the deleted URLs are exactly the deduplicated union of
the non-empty `generatedImageUrl`s referenced by the session's images and
the URLs of every blob stored under `active-sessions/{id}/`, with every
blob outside that union surviving; an image delete removes exactly the
first image with the given id from that one session's array (the session
record persists, its position and the history length unchanged, its image
count reduced by one) and deletes only that image's blob when one is
present - blobs with any other URL survive. -/
theorem history_cascade_delete (history : List HistoryEntry) (blobs : List BlobRec)
    (sid imgId : String) (k j : Nat) (sess : HistoryEntry) (img : GeneratedImage)
    (hk : history.findIdx? (fun item => item.id = sid) = some k)
    (hsess : history.getD k emptyHistoryEntry = sess)
    (hj : sess.images.findIdx? (fun im => im.id = imgId) = some j)
    (himg : sess.images.getD j emptyGeneratedImage = img) :
    (HistoryApi.DELETE true (some history) blobs (some sid) "session" none).store =
      some (history.filter fun item => !(item.id = sid)) ∧
    (∀ u, u ∈ HistoryApi.urlsToDelete history blobs sid ↔
        ((∃ sess2, history.find? (fun item => item.id = sid) = some sess2 ∧
            ∃ im ∈ sess2.images, im.generatedImageUrl = some u ∧ u ≠ "") ∨
          ∃ b ∈ blobs,
            strStartsWith b.pathname ("active-sessions/" ++ sid ++ "/") = true ∧
              b.url = u)) ∧
    (∀ b, b ∈ (HistoryApi.DELETE true (some history) blobs (some sid) "session" none).blobs
        ↔ b ∈ blobs ∧ b.url ∉ HistoryApi.urlsToDelete history blobs sid) ∧
    (HistoryApi.DELETE true (some history) blobs (some sid) "image" (some imgId)).store =
      some (history.set k { sess with images := sess.images.eraseIdx j }) ∧
    (HistoryApi.DELETE true (some history) blobs (some sid) "image" (some imgId)).result =
      .okImage ∧
    (history.set k { sess with images := sess.images.eraseIdx j }).length
      = history.length ∧
    (sess.images.eraseIdx j).length = sess.images.length - 1 ∧
    (HistoryApi.DELETE true (some history) blobs (some sid) "image" (some imgId)).blobs =
      (match img.generatedImageUrl with
        | some u => if u = "" then blobs else blobDel blobs [u]
        | none => blobs) ∧
    (∀ u b, img.generatedImageUrl = some u → b ∈ blobs → b.url ≠ u →
        b ∈ (HistoryApi.DELETE true (some history) blobs (some sid)
              "image" (some imgId)).blobs) := by
  have hjlt : j < sess.images.length :=
    (List.findIdx?_eq_some_iff_findIdx_eq.mp hj).1
  have hdelImg :
      HistoryApi.DELETE true (some history) blobs (some sid) "image" (some imgId) =
        { store := some (history.set k { sess with images := sess.images.eraseIdx j })
          blobs :=
            (match img.generatedImageUrl with
              | some u => if u = "" then blobs else blobDel blobs [u]
              | none => blobs)
          result := .okImage } := by
    simp only [HistoryApi.DELETE, Bool.not_true, Bool.false_eq_true, if_false,
      Option.getD_some, reduceIte, hk, hsess, hj, himg]
    rw [if_neg (show ¬("image" = "session") by decide)]
  refine ⟨?_, ?_, ?_, ?_, ?_, ?_, ?_, ?_, ?_⟩
  · simp [HistoryApi.DELETE]
  · intro u
    rw [HistoryApi.urlsToDelete, mem_addListedUrls, mem_sessionImageUrls]
    constructor
    · rintro (⟨sess2, hfind, hin⟩ | ⟨b, hb, hurl⟩)
      · exact Or.inl ⟨sess2, hfind, hin⟩
      · refine Or.inr ⟨b, ?_, ?_, hurl⟩
        · exact (List.mem_filter.mp hb).1
        · exact (List.mem_filter.mp hb).2
    · rintro (⟨sess2, hfind, hin⟩ | ⟨b, hb, hpath, hurl⟩)
      · exact Or.inl ⟨sess2, hfind, hin⟩
      · exact Or.inr ⟨b, List.mem_filter.mpr ⟨hb, hpath⟩, hurl⟩
  · intro b
    have : (HistoryApi.DELETE true (some history) blobs (some sid) "session" none).blobs
        = blobDel blobs (HistoryApi.urlsToDelete history blobs sid) := by
      simp [HistoryApi.DELETE]
    rw [this, blobDel, List.mem_filter]
    simp
  · rw [hdelImg]
  · rw [hdelImg]
  · exact List.length_set ..
  · rw [List.length_eraseIdx, if_pos hjlt]
  · rw [hdelImg]
  · intro u b hu hb hne
    rw [hdelImg]
    simp only [hu]
    by_cases he : u = ""
    · rw [if_pos he]
      exact hb
    · rw [if_neg he]
      rw [blobDel, List.mem_filter]
      exact ⟨hb, by simpa using hne⟩

/-- First generated image of the concrete demo session. -/
def demoImg1 : GeneratedImage :=
  { id := "img-1", sessionId := "sess-1", imageTypeId := "front-view"
    templateImageUrl := "https://blob.example/t1.png", promptUsed := "p1"
    generatedImageUrl := some "https://blob.example/active-sessions/sess-1/g1.png"
    status := .completed, apiCost := 2, createdAt := 10 }

/-- Second generated image of the concrete demo session. -/
def demoImg2 : GeneratedImage :=
  { id := "img-2", sessionId := "sess-1", imageTypeId := "side-view"
    templateImageUrl := "https://blob.example/t2.png", promptUsed := "p2"
    generatedImageUrl := some "https://blob.example/active-sessions/sess-1/g2.png"
    status := .completed, apiCost := 2, createdAt := 11 }

/-- A concrete history session holding two generated images. -/
def demoSession : HistoryEntry :=
  { id := "sess-1", productTypeId := "lifeguard-straw-hat"
    patternImageUrl := "https://blob.example/pattern.png", patternName := "Tropical"
    outputSettings := { aspectRatio := "1:1", size := "2k" }
    createdAt := 10, status := .completed, images := [demoImg1, demoImg2] }

/-- The two backing blobs of the demo session, stored under its folder. -/
def demoBlobs : List BlobRec :=
  [ { pathname := "active-sessions/sess-1/g1.png"
      url := "https://blob.example/active-sessions/sess-1/g1.png" }
  , { pathname := "active-sessions/sess-1/g2.png"
      url := "https://blob.example/active-sessions/sess-1/g2.png" } ]

/-- C7 witness: deleting the demo session (2 generated images) removes the
metadata entry and both backing blobs; the single-image delete leaves the
session with 1 image. -/
theorem history_cascade_delete_witness :
    (HistoryApi.DELETE true (some [demoSession]) demoBlobs (some "sess-1")
        "session" none).store = some [] ∧
    (HistoryApi.DELETE true (some [demoSession]) demoBlobs (some "sess-1")
        "session" none).blobs = [] ∧
    (demoSession.images.eraseIdx 0).length = 1 := by
  have h := history_cascade_delete [demoSession] demoBlobs "sess-1" "img-1" 0 0
      demoSession demoImg1 (by decide) (by decide) (by decide) (by decide)
  exact ⟨h.1, by decide, h.2.2.2.2.2.2.1⟩

/-! ## C10: degraded mode with an unconfigured store -/

/-- C10: while the backing store is unconfigured (no store client), the read
endpoints of the pattern library and the history log answer the empty list
as a success, while the mutating endpoints (add pattern, append history)
answer the storage-unavailable 503 error and leave all state untouched.
(`entry.id ≠ ""` keeps the history append past its prior 400 validation.) -/
theorem degraded_mode_endpoints (pstore : Option (List PersistentPattern))
    (hstore : Option (List HistoryEntry)) (scope : Option String)
    (p : PersistentPattern) (entry : HistoryEntry) (now : Nat)
    (hid : entry.id ≠ "") :
    PatternsApi.GET false pstore scope = [] ∧
    PatternsApi.POST false pstore p = (pstore, .storageUnavailable) ∧
    HistoryApi.GET false hstore = [] ∧
    HistoryApi.POST false hstore entry now = (hstore, .storageUnavailable) := by
  refine ⟨?_, ?_, ?_, ?_⟩ <;>
    simp [PatternsApi.GET, PatternsApi.POST, HistoryApi.GET, HistoryApi.POST, hid]

/-- C10 witness: the four degraded-mode behaviors at concrete stores. -/
theorem degraded_mode_endpoints_witness :
    PatternsApi.GET false (some [tropicalA]) (some "scope-a") = [] ∧
    PatternsApi.POST false (some [tropicalA]) tropicalA2 =
      (some [tropicalA], .storageUnavailable) ∧
    HistoryApi.GET false (some [demoSession]) = [] ∧
    HistoryApi.POST false (some [demoSession]) demoSession 5 =
      (some [demoSession], .storageUnavailable) :=
  degraded_mode_endpoints (some [tropicalA]) (some [demoSession]) (some "scope-a")
    tropicalA2 demoSession 5 (by decide)

/-! ## Generation orchestrator
(src/app/tools/product-on-white/page.tsx, `handleGenerate`) -/

/-- The template filter used both by `handleGenerate`'s `validTemplates` and
by the `templatesWithImages` readiness count: a template participates when
it has a truthy `templateImageBase64`, or a non-empty `templateImageUrl`
that is not a transient local `blob:` reference.  `isActive` is not
consulted anywhere in this filter. -/
def validTemplateFilter (t : ImageTemplate) : Bool :=
  (match t.templateImageBase64 with
    | some b => b ≠ ""
    | none => false) ||
  (t.templateImageUrl ≠ "" && !(strStartsWith t.templateImageUrl "blob:"))

/-- Modelled from the spec's words, for comparison with
`validTemplateFilter`: the claimed generation eligibility also requires
`isActive !== false`. -/
def specEligibleTemplate (t : ImageTemplate) : Bool :=
  !(t.isActive = some false) && validTemplateFilter t

/-- The composed prompt: `basePrompt` plus, when the per-template
modification is truthy (present and non-empty), a delimiter and the
modification text. -/
def composePrompt (t : ImageTemplate) (pm : List (String × String)) : String :=
  t.basePrompt ++
    (match pm.lookup t.id with
      | some m => if m = "" then "" else "\n\nAdditional instructions: " ++ m
      | none => "")

/-- The pending record `handleGenerate` builds for the `i`-th surviving
template.  The source evaluates `Date.now()` separately for the `id` field
and for the `sessionId` field and `new Date()` for `createdAt`, in field
order, so element `i` consumes clock reads `3*i`, `3*i+1` and `3*i+2`. -/
def initGeneratedImage (clock : Nat → Nat) (pm : List (String × String))
    (i : Nat) (t : ImageTemplate) : GeneratedImage :=
  { id := "gen-" ++ t.id ++ "-" ++ toString (clock (3 * i))
    sessionId := "session-" ++ toString (clock (3 * i + 1))
    imageTypeId := t.id
    templateImageUrl := t.templateImageUrl
    promptUsed := composePrompt t pm
    promptModification := pm.lookup t.id
    status := .pending
    refinements := []
    apiCost := 0
    errorMessage := none
    createdAt := clock (3 * i + 2) }

/-- All pending records, one per surviving template, in template order. -/
def initialImages (validTemplates : List ImageTemplate) (pm : List (String × String))
    (clock : Nat → Nat) : List GeneratedImage :=
  validTemplates.enum.map fun p => initGeneratedImage clock pm p.1 p.2

/-- The `setGeneratedImages` update marking the item with the captured id as
`generating`. -/
def markGenerating (targetId : String) (imgs : List GeneratedImage) :
    List GeneratedImage :=
  imgs.map fun img =>
    if img.id = targetId then { img with status := .generating } else img

/-- The terminal per-item update: a successful call makes the record
`completed`, carrying the returned URL and the fixed 2-cent charge; any
failure makes it `failed` and changes nothing else - in particular no
`errorMessage` is written (the source only logs the error to the console). -/
def markOutcome (targetId : String) (outcome : Except String String)
    (imgs : List GeneratedImage) : List GeneratedImage :=
  imgs.map fun img =>
    if img.id = targetId then
      match outcome with
      | .ok url =>
          { img with status := .completed, generatedImageUrl := some url, apiCost := 2 }
      | .error _ => { img with status := .failed }
    else img

/-- The sequential processing loop over template indices (the source's
`for (let i = 0; i < validTemplates.length; i++)`, with
`imageId = initialImages[i].id` captured from the untouched initial array). -/
def processLoop (gen : Nat → Except String String) (ids : List String) :
    List Nat → List GeneratedImage → List GeneratedImage
  | [], imgs => imgs
  | i :: rest, imgs =>
      processLoop gen ids rest
        (markOutcome (ids.getD i "") (gen i) (markGenerating (ids.getD i "") imgs))

/-- One observable client-side effect of a generation run. -/
inductive GenEvent where
  /-- `setGeneratedImages(initialImages)`: the pending collection handed to
  the UI. -/
  | exposeInitial (images : List GeneratedImage)
  /-- The external generation call for template index `i`. -/
  | dispatch (i : Nat)
  /-- An append to the history log (`POST /api/history`).  `handleGenerate`
  contains no such call, so no run ever emits this event. -/
  | historyAppend (sessionId : String)
deriving Repr, DecidableEq

/-- Whether an event is a history append. -/
def isHistoryAppendEvent : GenEvent → Bool
  | .historyAppend _ => true
  | _ => false

/-- What a whole `handleGenerate` run produces: the final per-item records
and the ordered trace of observable effects. -/
structure GenOutcome where
  images : List GeneratedImage
  trace : List GenEvent
deriving Repr, DecidableEq

/-- `handleGenerate` of src/app/tools/product-on-white/page.tsx (the
server-backed version): filters the selected set's templates through
`validTemplateFilter` (alerting and returning when none survive),
initializes one pending record per survivor, exposes that collection to the
UI, then processes the survivors strictly sequentially with one terminal
update each; the run ends by switching the workflow to `results`.  No
history write of any kind occurs in the source, so the trace holds the
initial exposure followed only by the per-item dispatches. -/
def handleGenerate (templates : List ImageTemplate) (pm : List (String × String))
    (clock : Nat → Nat) (gen : Nat → Except String String) : GenOutcome :=
  let validTemplates := templates.filter validTemplateFilter
  if validTemplates.isEmpty then { images := [], trace := [] }
  else
    let initImgs := initialImages validTemplates pm clock
    { images :=
        processLoop gen (initImgs.map fun img => img.id)
          (List.range validTemplates.length) initImgs
      trace :=
        .exposeInitial initImgs ::
          (List.range validTemplates.length).map .dispatch }

/-! ## C4/C5/C9 proof machinery for the orchestrator loop -/

/-- The net per-item effect of one loop iteration on the targeted record
(the `generating` mark immediately overwritten by the terminal mark). -/
def applyItemOutcome (outcome : Except String String) (img : GeneratedImage) :
    GeneratedImage :=
  match outcome with
  | .ok url =>
      { img with status := .completed, generatedImageUrl := some url, apiCost := 2 }
  | .error _ => { img with status := .failed }

/-- The item id survives the terminal update. -/
theorem applyItemOutcome_id (o : Except String String) (img : GeneratedImage) :
    (applyItemOutcome o img).id = img.id := by
  cases o <;> rfl

/-- The terminal update never writes an error message. -/
theorem applyItemOutcome_errorMessage (o : Except String String) (img : GeneratedImage) :
    (applyItemOutcome o img).errorMessage = img.errorMessage := by
  cases o <;> rfl

/-- The final status is `completed` on a successful call, `failed` otherwise. -/
theorem applyItemOutcome_status (o : Except String String) (img : GeneratedImage) :
    (applyItemOutcome o img).status =
      (match o with
        | .ok _ => GenStatus.completed
        | .error _ => GenStatus.failed) := by
  cases o <;> rfl

/-- The item sessionId survives the terminal update. -/
theorem applyItemOutcome_sessionId (o : Except String String) (img : GeneratedImage) :
    (applyItemOutcome o img).sessionId = img.sessionId := by
  cases o <;> rfl

/-- One loop iteration is a single id-keyed map applying the net update. -/
theorem markOutcome_markGenerating (tid : String) (o : Except String String)
    (imgs : List GeneratedImage) :
    markOutcome tid o (markGenerating tid imgs) =
      imgs.map fun img => if img.id = tid then applyItemOutcome o img else img := by
  rw [markOutcome, markGenerating, List.map_map]
  refine List.map_congr_left fun img _ => ?_
  by_cases h : img.id = tid
  · cases o <;> simp [h, applyItemOutcome]
  · simp [h]

/-- Pointwise effect of one id-keyed map when the ids are distinct: position
`i`'s record is updated, all others are untouched. -/
theorem keyed_map_getElem (imgs : List GeneratedImage)
    (u : GeneratedImage → GeneratedImage) (i j : Nat)
    (hnodup : (imgs.map fun img => img.id).Nodup) (hi : i < imgs.length) :
    (imgs.map fun img =>
        if img.id = (imgs.map fun img => img.id).getD i "" then u img else img)[j]? =
      if j = i then imgs[j]?.map u else imgs[j]? := by
  by_cases hj : j < imgs.length
  · rw [List.getElem?_map, List.getElem?_eq_getElem hj]
    have hgetD : (imgs.map fun img => img.id).getD i "" = imgs[i].id := by
      rw [List.getD_eq_getElem?_getD, List.getElem?_map, List.getElem?_eq_getElem hi]
      rfl
    have hjm : j < (imgs.map fun img => img.id).length := by simpa using hj
    have him : i < (imgs.map fun img => img.id).length := by simpa using hi
    have hiff : (imgs[j].id = imgs[i].id) ↔ j = i := by
      constructor
      · intro he
        have h1 : (imgs.map fun img => img.id)[j] =
            (imgs.map fun img => img.id)[i] := by
          simpa using he
        exact hnodup.getElem_inj_iff.mp h1
      · intro he
        subst he
        rfl
    rw [hgetD]
    by_cases he : j = i
    · subst he
      simp [hiff.mpr rfl]
    · have : ¬(imgs[j].id = imgs[i].id) := fun hc => he (hiff.mp hc)
      simp [this, he]
  · have h1 : imgs[j]? = none := List.getElem?_eq_none (Nat.le_of_not_lt hj)
    have h2 : (imgs.map fun img =>
        if img.id = (imgs.map fun img => img.id).getD i "" then u img else img)[j]? = none :=
      List.getElem?_eq_none (by simpa using Nat.le_of_not_lt hj)
    rw [h1, h2]
    have : ¬(j = i) := fun he => hj (he ▸ hi)
    simp [this]

/-- The id list is invariant under one fused loop iteration. -/
theorem keyed_map_ids (imgs : List GeneratedImage) (tid : String)
    (o : Except String String) :
    ((imgs.map fun img => if img.id = tid then applyItemOutcome o img else img).map
        fun img => img.id) = imgs.map fun img => img.id := by
  rw [List.map_map]
  refine List.map_congr_left fun img _ => ?_
  by_cases h : img.id = tid
  · simp [h, applyItemOutcome_id]
  · simp [h]

/-- Pointwise characterization of the whole processing loop: over a nodup
index list within bounds, each listed position ends as its initial record
passed through its own net update, and unlisted positions keep their
record. -/
theorem processLoop_getElem (gen : Nat → Except String String) (ids : List String)
    (hnodup : ids.Nodup) :
    ∀ (L : List Nat) (acc : List GeneratedImage),
      (acc.map fun img => img.id) = ids →
      (∀ i ∈ L, i < ids.length) → L.Nodup →
      ∀ j, (processLoop gen ids L acc)[j]? =
        if j ∈ L then acc[j]?.map (applyItemOutcome (gen j)) else acc[j]? := by
  intro L
  induction L with
  | nil =>
      intro acc hids hL hnd j
      simp [processLoop]
  | cons i rest ih =>
      intro acc hids hL hnd j
      rw [processLoop, markOutcome_markGenerating]
      rw [show ids.getD i "" = (acc.map fun img => img.id).getD i "" from by rw [hids]]
      have hnodup2 : (acc.map fun img => img.id).Nodup := by rw [hids]; exact hnodup
      have hi : i < acc.length := by
        have h1 := hL i (by simp)
        rw [← hids] at h1
        simpa using h1
      have hids2 : ((acc.map fun img =>
          if img.id = (acc.map fun img => img.id).getD i "" then
            applyItemOutcome (gen i) img
          else img).map fun img => img.id) = ids := by
        rw [keyed_map_ids, hids]
      have hrest := ih
        (acc.map fun img =>
          if img.id = (acc.map fun img => img.id).getD i "" then
            applyItemOutcome (gen i) img
          else img)
        hids2 (fun x hx => hL x (by simp [hx])) hnd.of_cons j
      rw [hrest]
      have hstep := fun j2 =>
        keyed_map_getElem acc (applyItemOutcome (gen i)) i j2 hnodup2 hi
      by_cases hjrest : j ∈ rest
      · have hji : ¬(j = i) := by
          rintro rfl
          exact (List.nodup_cons.mp hnd).1 hjrest
        rw [if_pos hjrest, hstep j, if_neg hji, if_pos (by simp [hjrest])]
      · by_cases hji : j = i
        · subst hji
          rw [if_neg hjrest, hstep j, if_pos rfl, if_pos (by simp)]
        · rw [if_neg hjrest, hstep j, if_neg hji,
            if_neg (by simp [hjrest, hji])]

/-- The processing loop never adds or drops records. -/
theorem processLoop_length (gen : Nat → Except String String) (ids : List String) :
    ∀ (L : List Nat) (acc : List GeneratedImage),
      (processLoop gen ids L acc).length = acc.length := by
  intro L
  induction L with
  | nil => intro acc; simp [processLoop]
  | cons i rest ih =>
      intro acc
      rw [processLoop, ih, markOutcome, markGenerating]
      simp

/-- Each initial record of the run carries no error message. -/
theorem initialImages_errorMessage (validTemplates : List ImageTemplate)
    (pm : List (String × String)) (clock : Nat → Nat) (j : Nat) (img : GeneratedImage)
    (h : (initialImages validTemplates pm clock)[j]? = some img) :
    img.errorMessage = none := by
  rw [initialImages, List.getElem?_map, List.getElem?_enum] at h
  cases h2 : validTemplates[j]? with
  | none => rw [h2] at h; simp at h
  | some t =>
      rw [h2] at h
      have h3 : initGeneratedImage clock pm j t = img := by simpa using h
      rw [← h3]
      rfl

/-- Length of the initial collection. -/
theorem initialImages_length (validTemplates : List ImageTemplate)
    (pm : List (String × String)) (clock : Nat → Nat) :
    (initialImages validTemplates pm clock).length = validTemplates.length := by
  rw [initialImages, List.length_map, List.enum_length]

/-- C4 (amended): in every generation run whose initial records get distinct
ids (the source keys its per-item updates on the record id), per-item
failures do not abort the loop: the run ends with exactly one record per
surviving template, the i-th record's final status is `completed` when the
i-th external call succeeds and `failed` when it fails - so with 3 templates
whose 2nd call throws, the statuses are [completed, failed, completed] - and
every record ends in a terminal state; however no `errorMessage` is recorded
on failed records (every record's `errorMessage` stays `none`; the source
only logs the error to the browser console). -/
theorem gen_partial_failure_semantics (templates : List ImageTemplate)
    (pm : List (String × String)) (clock : Nat → Nat)
    (gen : Nat → Except String String)
    (hnodup : ((initialImages (templates.filter validTemplateFilter) pm clock).map
        (fun img => img.id)).Nodup) :
    (handleGenerate templates pm clock gen).images.length =
      (templates.filter validTemplateFilter).length ∧
    (handleGenerate templates pm clock gen).images.map (fun img => img.status) =
      (List.range (templates.filter validTemplateFilter).length).map
        (fun i => match gen i with
          | .ok _ => GenStatus.completed
          | .error _ => GenStatus.failed) ∧
    (handleGenerate templates pm clock gen).images.map (fun img => img.errorMessage) =
      List.replicate (templates.filter validTemplateFilter).length none ∧
    ∀ img ∈ (handleGenerate templates pm clock gen).images,
      img.status = GenStatus.completed ∨ img.status = GenStatus.failed := by
  cases hvt : (templates.filter validTemplateFilter).isEmpty with
  | true =>
      have hnil : templates.filter validTemplateFilter = [] := List.isEmpty_iff.mp hvt
      rw [handleGenerate]
      simp [hnil]
  | false =>
      have hG : (handleGenerate templates pm clock gen).images =
          processLoop gen
            ((initialImages (templates.filter validTemplateFilter) pm clock).map
              fun img => img.id)
            (List.range (templates.filter validTemplateFilter).length)
            (initialImages (templates.filter validTemplateFilter) pm clock) := by
        rw [handleGenerate]
        simp [hvt]
      have hinitlen := initialImages_length (templates.filter validTemplateFilter) pm clock
      have hidslen : ((initialImages (templates.filter validTemplateFilter) pm clock).map
          fun img => img.id).length = (templates.filter validTemplateFilter).length := by
        rw [List.length_map, hinitlen]
      have hpoint := processLoop_getElem gen
        ((initialImages (templates.filter validTemplateFilter) pm clock).map
          fun img => img.id)
        hnodup (List.range (templates.filter validTemplateFilter).length)
        (initialImages (templates.filter validTemplateFilter) pm clock) rfl
        (fun i hi => by rw [hidslen]; exact List.mem_range.mp hi)
        (List.nodup_range _)
      have hlen : (handleGenerate templates pm clock gen).images.length =
          (templates.filter validTemplateFilter).length := by
        rw [hG, processLoop_length, hinitlen]
      have hkey : ∀ j, (handleGenerate templates pm clock gen).images[j]? =
          if j < (templates.filter validTemplateFilter).length then
            (initialImages (templates.filter validTemplateFilter) pm clock)[j]?.map
              (applyItemOutcome (gen j))
          else none := by
        intro j
        rw [hG, hpoint j]
        by_cases hj : j < (templates.filter validTemplateFilter).length
        · rw [if_pos (List.mem_range.mpr hj), if_pos hj]
        · rw [if_neg (fun hc => hj (List.mem_range.mp hc)), if_neg hj]
          exact List.getElem?_eq_none (by rw [hinitlen]; exact Nat.le_of_not_lt hj)
      have hstatus : (handleGenerate templates pm clock gen).images.map
          (fun img => img.status) =
          (List.range (templates.filter validTemplateFilter).length).map
            (fun i => match gen i with
              | .ok _ => GenStatus.completed
              | .error _ => GenStatus.failed) := by
        refine List.ext_getElem? fun j => ?_
        rw [List.getElem?_map, List.getElem?_map, hkey j]
        by_cases hj : j < (templates.filter validTemplateFilter).length
        · rw [if_pos hj, List.getElem?_range hj]
          have hjin : j < (initialImages (templates.filter validTemplateFilter)
              pm clock).length := by rw [hinitlen]; exact hj
          rw [List.getElem?_eq_getElem hjin]
          simp [applyItemOutcome_status]
        · rw [if_neg hj, List.getElem?_eq_none
            (by rw [List.length_range]; exact Nat.le_of_not_lt hj)]
          rfl
      refine ⟨hlen, hstatus, ?_, ?_⟩
      · refine List.ext_getElem? fun j => ?_
        rw [List.getElem?_map, hkey j]
        by_cases hj : j < (templates.filter validTemplateFilter).length
        · rw [if_pos hj]
          have hjin : j < (initialImages (templates.filter validTemplateFilter)
              pm clock).length := by rw [hinitlen]; exact hj
          rw [List.getElem?_eq_getElem hjin]
          have hmsg := initialImages_errorMessage (templates.filter validTemplateFilter)
            pm clock j _ (List.getElem?_eq_getElem hjin)
          simp [applyItemOutcome_errorMessage, hmsg,
            List.getElem?_replicate, hj]
        · rw [if_neg hj, List.getElem?_eq_none
            (by rw [List.length_replicate]; exact Nat.le_of_not_lt hj)]
          rfl
      · intro img hmem
        have h1 : img.status ∈ (handleGenerate templates pm clock gen).images.map
            (fun img => img.status) := List.mem_map_of_mem _ hmem
        rw [hstatus] at h1
        obtain ⟨i, _, hfi⟩ := List.mem_map.mp h1
        cases hgi : gen i with
        | ok u => rw [hgi] at hfi; exact Or.inl hfi.symm
        | error e => rw [hgi] at hfi; exact Or.inr hfi.symm

/-! ## Orchestrator fixtures -/

/-- An active template with a stored image URL. -/
def frontT : ImageTemplate :=
  { id := "front", name := "Front View"
    templateImageUrl := "https://blob.example/front.png"
    basePrompt := "Front prompt", sortOrder := 0, isActive := some true
    createdAt := 0, updatedAt := 0 }

/-- A paused template (`isActive = false`) that still has a stored image URL. -/
def pausedT : ImageTemplate :=
  { id := "side", name := "Side View"
    templateImageUrl := "https://blob.example/side.png"
    basePrompt := "Side prompt", sortOrder := 1, isActive := some false
    createdAt := 0, updatedAt := 0 }

/-- An active template with an empty image URL (no image yet). -/
def noImageT : ImageTemplate :=
  { id := "detail", name := "Detail View", templateImageUrl := ""
    basePrompt := "Detail prompt", sortOrder := 2, isActive := some true
    createdAt := 0, updatedAt := 0 }

/-- A second active template with a stored image URL. -/
def backT : ImageTemplate :=
  { id := "back", name := "Back View"
    templateImageUrl := "https://blob.example/back.png"
    basePrompt := "Back prompt", sortOrder := 1, isActive := some true
    createdAt := 0, updatedAt := 0 }

/-- A third active template with a stored image URL. -/
def brimT : ImageTemplate :=
  { id := "brim", name := "Brim Detail"
    templateImageUrl := "https://blob.example/brim.png"
    basePrompt := "Brim prompt", sortOrder := 2, isActive := some true
    createdAt := 0, updatedAt := 0 }

/-- The claim's 3-template eligibility example: one active with image, one
paused with image, one active without image. -/
def c3Templates : List ImageTemplate := [frontT, pausedT, noImageT]

/-- Three active templates with images, for the partial-failure runs. -/
def c4Templates : List ImageTemplate := [frontT, backT, brimT]

/-- Two active templates with images, for the session-id runs. -/
def c9Templates : List ImageTemplate := [frontT, backT]

/-- External outcomes for the 3-template runs: the 2nd call throws, the
others return a stored image URL. -/
def c4Gen : Nat → Except String String := fun i =>
  if i = 1 then .error "Failed to generate image"
  else .ok ("https://blob.example/generated-" ++ toString i ++ ".png")

/-! ## C3: eligibility ignores isActive -/

/-- C3: the eligibility filter of the generation run consults only the
image reference and never `isActive`: on the claim's 3-template set - one
`isActive = false` template that has a valid image, one template with an
empty `templateImageUrl` - the code admits 2 templates into the run,
including the paused one, while the claimed rule (`isActive !== false` AND
usable image, here `specEligibleTemplate`) admits exactly 1. -/
theorem inactive_template_still_eligible :
    (c3Templates.filter validTemplateFilter).length = 2 ∧
    (c3Templates.filter specEligibleTemplate).length = 1 ∧
    pausedT.isActive = some false ∧
    validTemplateFilter pausedT = true := by
  decide

/-! ## C4: partial failure semantics -/

/-- C4 counterexample: in the concrete 3-template run whose 2nd call
throws, processing continues - the statuses end [completed, failed,
completed] - but the failed record's `errorMessage` is `none`: no
human-readable message is recorded anywhere on the record, contrary to the
claim. -/
theorem gen_failure_drops_error_message_cex :
    ((handleGenerate c4Templates [] (fun _ => 7) c4Gen).images.map
        fun img => img.status) = [.completed, .failed, .completed] ∧
    ((handleGenerate c4Templates [] (fun _ => 7) c4Gen).images.map
        fun img => img.errorMessage) = [none, none, none] := by
  decide

/-- C4 witness: the amended semantics evaluated on the concrete 3-template
run with the 2nd call throwing. -/
theorem gen_partial_failure_semantics_witness :
    (handleGenerate c4Templates [] (fun _ => 7) c4Gen).images.length = 3 ∧
    ((handleGenerate c4Templates [] (fun _ => 7) c4Gen).images.map
        fun img => img.status) = [.completed, .failed, .completed] := by
  have h := gen_partial_failure_semantics c4Templates [] (fun _ => 7) c4Gen (by decide)
  exact ⟨h.1, h.2.1⟩

/-! ## C5: no history persistence -/

/-- C5: no generation run ever appends to the history log: for every
template list, prompt-modification map, clock and collaborator behavior,
the run's trace contains zero history-append events.  The append endpoint
exists (`HistoryApi.POST` assigns the server timestamp) but `handleGenerate`
never calls it, and no session-level status is ever derived. -/
theorem generation_never_persists_history (templates : List ImageTemplate)
    (pm : List (String × String)) (clock : Nat → Nat)
    (gen : Nat → Except String String) :
    (handleGenerate templates pm clock gen).trace.countP isHistoryAppendEvent = 0 := by
  rw [handleGenerate]
  cases hvt : (templates.filter validTemplateFilter).isEmpty with
  | true => simp [hvt]
  | false =>
      simp only [hvt, Bool.false_eq_true, if_false]
      rw [List.countP_eq_zero]
      intro e he
      rcases List.mem_cons.mp he with rfl | hmem
      · simp [isHistoryAppendEvent]
      · obtain ⟨i, _, rfl⟩ := List.mem_map.mp hmem
        simp [isHistoryAppendEvent]

/-! ## C9: session initialization -/

/-- C9 (amended): the initialization of a run makes every record `pending`
and exposes the collection to the UI strictly before any external dispatch
(the trace is the exposure followed only by the per-item dispatches, in
order); each record's `sessionId` is derived from that record's own
`Date.now()` read, so all records share one sessionId exactly when the
clock does not advance during initialization (hypothesis `∀ k, clock k =
t0`) - not unconditionally (see the counterexample). -/
theorem session_initialization (templates : List ImageTemplate)
    (pm : List (String × String)) (clock : Nat → Nat)
    (gen : Nat → Except String String) (t0 : Nat)
    (hclock : ∀ k, clock k = t0)
    (hne : (templates.filter validTemplateFilter).isEmpty = false) :
    ((initialImages (templates.filter validTemplateFilter) pm clock).map
        fun img => img.sessionId) =
      List.replicate (templates.filter validTemplateFilter).length
        ("session-" ++ toString t0) ∧
    ((initialImages (templates.filter validTemplateFilter) pm clock).map
        fun img => img.status) =
      List.replicate (templates.filter validTemplateFilter).length GenStatus.pending ∧
    (handleGenerate templates pm clock gen).trace =
      .exposeInitial (initialImages (templates.filter validTemplateFilter) pm clock) ::
        (List.range (templates.filter validTemplateFilter).length).map .dispatch := by
  refine ⟨?_, ?_, ?_⟩
  · rw [initialImages, List.map_map]
    rw [show ((fun img => img.sessionId) ∘ fun p : Nat × ImageTemplate =>
        initGeneratedImage clock pm p.1 p.2) = fun _ : Nat × ImageTemplate =>
          "session-" ++ toString t0 from funext fun p => by
            simp [Function.comp, initGeneratedImage, hclock]]
    rw [List.map_const', List.enum_length]
  · rw [initialImages, List.map_map]
    rw [show ((fun img => img.status) ∘ fun p : Nat × ImageTemplate =>
        initGeneratedImage clock pm p.1 p.2) = fun _ : Nat × ImageTemplate =>
          GenStatus.pending from funext fun p => rfl]
    rw [List.map_const', List.enum_length]
  · rw [handleGenerate]
    simp [hne]

/-- C9 witness: with a clock frozen at 7, both records of the 2-template
run share sessionId "session-7", start `pending`, and the trace is the
exposure followed by the two dispatches. -/
theorem session_initialization_witness :
    ((initialImages (c9Templates.filter validTemplateFilter) [] fun _ => 7).map
        fun img => img.sessionId) = List.replicate 2 ("session-" ++ toString 7) ∧
    ((initialImages (c9Templates.filter validTemplateFilter) [] fun _ => 7).map
        fun img => img.status) = List.replicate 2 GenStatus.pending ∧
    (handleGenerate c9Templates [] (fun _ => 7) c4Gen).trace =
      .exposeInitial (initialImages (c9Templates.filter validTemplateFilter) []
          fun _ => 7) :: (List.range 2).map .dispatch :=
  session_initialization c9Templates [] (fun _ => 7) c4Gen 7 (fun _ => rfl) (by decide)

/-- C9 counterexample: with a clock that advances during initialization
(reading `k` at the `k`-th call), the two records of one run get
sessionIds "session-1" and "session-4" - `session-${Date.now()}` is
evaluated once per record, so the records of a run need not share one
sessionId. -/
theorem session_id_not_shared_cex :
    ((initialImages (c9Templates.filter validTemplateFilter) [] fun k => k).map
        fun img => img.sessionId) = ["session-1", "session-4"] ∧
    ("session-1" : String) ≠ "session-4" := by
  decide
